import Mathlib

/-
Verification of the gesture-control repository core against its
specification.

The development shallowly embeds the two core components:

1. `GestureManager` (src/particle-text/GestureManager.ts): a pure
   classifier from 21 hand landmark points (plus a rolling wave-history
   buffer, threaded explicitly) to a gesture symbol.  Coordinates are
   modelled as rationals; `Math.hypot dx dy < c` is embedded as
   `dx*dx + dy*dy < c*c`, which is equivalent for `0 < c` since both
   sides are nonnegative.

2. `ParticleTextRenderer` (src/particle-text/ParticleTextRenderer.ts):
   the particle morph engine.  Its state is embedded further below over
   the real numbers (the fist-ball command uses trigonometry), with the
   position buffers as index functions and `Math.random` draws passed in
   as explicit streams, one draw index per source call in program order.
   Canvas rasterization (an external platform capability) is passed in
   as the pixel-byte map produced by drawing a given text.
-/

/-- Gesture symbols produced by the classifier, as in GestureManager.ts. -/
inductive GestureType where
  | none
  | open_palm
  | ok_sign
  | fist
  | wave
  | victory
  | finger_heart
  | thumbs_up
deriving DecidableEq, Repr

/-- One tracked hand landmark point, normalized coordinates. -/
structure Landmark where
  x : ℚ
  y : ℚ
  z : ℚ
deriving DecidableEq, Repr

/-- A hand pose sample: landmark points indexed by their fixed semantic
position (the classifier only ever reads indices 0..20). -/
def HandSample : Type := ℕ → Landmark

/-- Squared planar distance between two landmarks; `Math.hypot (a.x-b.x)
(a.y-b.y) < c` is embedded as `sqDist a b < c*c`. -/
def sqDist (a b : Landmark) : ℚ :=
  (a.x - b.x) * (a.x - b.x) + (a.y - b.y) * (a.y - b.y)

/-- GestureManager.isThumbsUp: four fingers curled, thumb tip above the
thumb MCP by more than 0.05. -/
def isThumbsUp (l : HandSample) : Bool :=
  let fingersCurled :=
    decide ((l 6).y < (l 8).y) && decide ((l 10).y < (l 12).y) &&
    decide ((l 14).y < (l 16).y) && decide ((l 18).y < (l 20).y)
  let thumbExtended := decide ((l 4).y < (l 2).y - 0.05)
  fingersCurled && thumbExtended

/-- GestureManager.isVictory: index and middle extended, ring and pinky
curled. -/
def isVictory (l : HandSample) : Bool :=
  decide ((l 8).y < (l 6).y) && decide ((l 12).y < (l 10).y) &&
  decide ((l 14).y < (l 16).y) && decide ((l 18).y < (l 20).y)

/-- GestureManager.isFingerHeart: thumb tip close to index tip (distance
below 0.08), middle, ring and pinky curled, index tip not curled. -/
def isFingerHeart (l : HandSample) : Bool :=
  let isClose := decide (sqDist (l 4) (l 8) < 0.08 * 0.08)
  let othersCurled :=
    decide ((l 10).y < (l 12).y) && decide ((l 14).y < (l 16).y) &&
    decide ((l 18).y < (l 20).y)
  let indexNotCurled := decide ((l 8).y < (l 6).y)
  isClose && othersCurled && indexNotCurled

/-- GestureManager.isOkSign: thumb tip pinching index tip (distance below
0.05), middle, ring and pinky extended. -/
def isOkSign (l : HandSample) : Bool :=
  let isPinch := decide (sqDist (l 4) (l 8) < 0.05 * 0.05)
  isPinch && decide ((l 12).y < (l 10).y) &&
  decide ((l 16).y < (l 14).y) && decide ((l 20).y < (l 18).y)

/-- GestureManager.isOpenPalm: all four non-thumb fingertips extended
(tip y below PIP y). -/
def isOpenPalm (l : HandSample) : Bool :=
  decide ((l 8).y < (l 6).y) && decide ((l 12).y < (l 10).y) &&
  decide ((l 16).y < (l 14).y) && decide ((l 20).y < (l 18).y)

/-- GestureManager.isFist: all four non-thumb fingertips curled. -/
def isFist (l : HandSample) : Bool :=
  decide ((l 6).y < (l 8).y) && decide ((l 10).y < (l 12).y) &&
  decide ((l 14).y < (l 16).y) && decide ((l 18).y < (l 20).y)

/-- Largest element of a list of rationals (Math.max over a spread
array; only ever used on nonempty lists). -/
def maxQ : List ℚ → ℚ
  | [] => 0
  | h :: t => t.foldl max h

/-- Smallest element of a list of rationals. -/
def minQ : List ℚ → ℚ
  | [] => 0
  | h :: t => t.foldl min h

/-- GestureManager.checkWave: push the middle-fingertip x coordinate into
the rolling history (capacity 20, oldest evicted), then report whether
the history holds at least 5 samples whose spread exceeds 0.15.  Returns
the flag together with the mutated history. -/
def checkWave (l : HandSample) (waveHistory : List ℚ) : Bool × List ℚ :=
  let trackingPointX := (l 12).x
  let h1 := waveHistory ++ [trackingPointX]
  let h2 := if 20 < h1.length then h1.tail else h1
  if h2.length < 5 then (false, h2)
  else (decide (0.15 < maxQ h2 - minQ h2), h2)

/-- GestureManager.detectGesture: wave (temporal) first, then the static
gestures in fixed precedence; returns the symbol and the mutated wave
history. -/
def detectGesture (l : HandSample) (waveHistory : List ℚ) :
    GestureType × List ℚ :=
  let w := checkWave l waveHistory
  if w.1 then (GestureType.wave, w.2)
  else if isFingerHeart l then (GestureType.finger_heart, w.2)
  else if isVictory l then (GestureType.victory, w.2)
  else if isThumbsUp l then (GestureType.thumbs_up, w.2)
  else if isOkSign l then (GestureType.ok_sign, w.2)
  else if isOpenPalm l then (GestureType.open_palm, w.2)
  else if isFist l then (GestureType.fist, w.2)
  else (GestureType.none, w.2)

/-- Run detectGesture over a list of samples from a starting history,
returning the last result and the final history. -/
def detectSeq (ls : List HandSample) (waveHistory : List ℚ) :
    GestureType × List ℚ :=
  ls.foldl (fun acc l => detectGesture l acc.2) (GestureType.none, waveHistory)

/-- Modelled from the spec, for the refinement claim about the
finger-heart predicate: thumb-tip-to-index-tip Euclidean distance below
the pinch threshold 0.08 (embedded as the squared comparison), middle,
ring and pinky tips curled (tip y greater than PIP y), index tip not
curled (tip y less than PIP y). -/
def fingerHeartSpec (l : HandSample) : Prop :=
  sqDist (l 4) (l 8) < 0.08 * 0.08 ∧
  (l 12).y > (l 10).y ∧ (l 16).y > (l 14).y ∧ (l 20).y > (l 18).y ∧
  (l 8).y < (l 6).y

/-- State of the particle morph engine (ParticleTextRenderer.ts).  The
Float32Array buffers are embedded as index functions (entries beyond
index `3 * particleCount` are never touched by the source, which the
invariant theorems make explicit); the text cache is the insertion-order
association list underlying the source Map. -/
@[ext]
structure REngineState where
  particleCount : ℕ
  currentPositions : ℕ → ℝ
  targetPositions : ℕ → ℝ
  needsUpdate : Bool
  textCache : List (String × (List (ℝ × ℝ) × ℕ))
  isFistBallActive : Bool
  fistBallCenter : ℝ × ℝ × ℝ
  fistBallOffsets : ℕ → ℝ
  activeParticleCount : ℕ
  materialColor : ℕ

/-- Minimum movement to trigger an update of a component. -/
noncomputable def updateThreshold : ℝ := 0.001

/-- Radius of the fist ball. -/
noncomputable def fistBallRadius : ℝ := 3.0

/-- Transition speed used while forming text. -/
noncomputable def textTransitionSpeed : ℝ := 0.08

/-- Transition speed used while the fist ball tracks the palm. -/
noncomputable def fistBallTransitionSpeed : ℝ := 0.15

/-- Transition speed used during the explosion effect. -/
noncomputable def explosionTransitionSpeed : ℝ := 0.12

/-- ParticleTextRenderer constructor: both buffers are initialized with
uniform randoms in (-5, 5); the random stream is consumed in program
order, two draws per flat index. -/
noncomputable def initEngine (r : ℕ → ℝ) (particleCount : ℕ) : REngineState where
  particleCount := particleCount
  currentPositions := fun j =>
    if j < 3 * particleCount then (r (2 * j) - 0.5) * 10 else 0
  targetPositions := fun j =>
    if j < 3 * particleCount then (r (2 * j + 1) - 0.5) * 10 else 0
  needsUpdate := true
  textCache := []
  isFistBallActive := false
  fistBallCenter := (0, (0, 0))
  fistBallOffsets := fun _ => 0
  activeParticleCount := 0
  materialColor := 0x00ffff

/-- ParticleTextRenderer.makeFluorescent: finite lookup table with the
original color as fallback. -/
def makeFluorescent (color : ℕ) : ℕ :=
  if color = 0x00ff00 then 0x00FF00
  else if color = 0xffff00 then 0xCCFF00
  else if color = 0xff00ff then 0xFF1493
  else if color = 0x00ffff then 0x00FFFF
  else if color = 0xff69b4 then 0xFF1493
  else if color = 0x4488ff then 0x00FFFF
  else if color = 0xff0000 then 0xFF1493
  else if color = 0xffaa00 then 0xFFA500
  else if color = 0xaaaaaa then 0x00FF00
  else color

/-- ParticleTextRenderer.generateTextPoints: sample the 1024 x 512 canvas
bitmap produced by drawing `text` on a stride-6 grid (the loop `y += 6`
visits exactly the multiples of 6 below the canvas height), keep pixels
whose red byte exceeds 128, and map them into render space by the fixed
linear scale with a vertical flip.  The platform canvas is the injected
map `draw` from the drawn text to the pixel byte at a flat data index. -/
noncomputable def generateTextPoints (draw : String → ℕ → ℕ) (text : String) :
    List (ℝ × ℝ) :=
  ((List.range 512).filter (fun y => y % 6 = 0)).flatMap (fun y =>
    ((List.range 1024).filter (fun x => x % 6 = 0)).filterMap (fun x =>
      if 128 < draw text ((y * 1024 + x) * 4) then
        some (((x : ℝ) - 1024 / 2) * 0.02, -((y : ℝ) - 512 / 2) * 0.02)
      else none))

/-- First entry of the cache association list with the given key
(Map.get on the insertion-ordered map). -/
def cacheFind (key : String) :
    List (String × (List (ℝ × ℝ) × ℕ)) → Option (List (ℝ × ℝ) × ℕ)
  | [] => none
  | e :: t => if e.1 = key then some e.2 else cacheFind key t

/-- Target assignment loop of updateText: particle i below the sample
count forms the text at 1.5x scale with z = 0; every later particle
parks at (0, 0, -1000); entries beyond the buffer are untouched. -/
noncomputable def assignTextTargets (particleCount : ℕ)
    (validPoints : List (ℝ × ℝ)) (old : ℕ → ℝ) : ℕ → ℝ := fun j =>
  if j < 3 * particleCount then
    if j / 3 < validPoints.length then
      if j % 3 = 0 then (validPoints.getD (j / 3) (0, 0)).1 * 1.5
      else if j % 3 = 1 then (validPoints.getD (j / 3) (0, 0)).2 * 1.5
      else 0
    else if j % 3 = 2 then -1000 else 0
  else old j

/-- ParticleTextRenderer.updateText: resolve the fluorescent color, serve
the sampled points from the bounded text cache when the (text, color)
key is present (on a miss, rasterize, evict the oldest entry once the
cache holds more than 10 entries, and insert), then retarget: particle i
below the sample count forms the text at 1.5x scale with z = 0, every
later particle parks at (0, 0, -1000). -/
noncomputable def updateText (draw : String → ℕ → ℕ) (text : String) (color : ℕ)
    (s : REngineState) : REngineState :=
  let fluorescentColor := makeFluorescent color
  let cacheKey := text ++ "_" ++ toString fluorescentColor
  let hit := cacheFind cacheKey s.textCache
  let validPoints := match hit with
    | some e => e.1
    | none => generateTextPoints draw text
  let textCache1 := match hit with
    | some _ => s.textCache
    | none =>
        (if 10 < s.textCache.length then s.textCache.tail else s.textCache) ++
          [(cacheKey, (validPoints, fluorescentColor))]
  { s with
    materialColor := fluorescentColor
    textCache := textCache1
    activeParticleCount := validPoints.length
    targetPositions := assignTextTargets s.particleCount validPoints
      s.targetPositions
    needsUpdate := true }

/-- ParticleTextRenderer.explode: scale the current position of every
particle below the explode count by 8 and add a random jitter in
(-7.5, 7.5) per component (draw index = flat component index, in program
order); the explode count is the whole cloud when the fist ball is
active and the active count otherwise; every later particle parks at
(0, 0, -1000); the fist-ball flag is cleared and the explode count
becomes the active count.  Float32Array writes beyond the buffer length
are dropped, hence the outer bound on the flat index. -/
noncomputable def explode (r : ℕ → ℝ) (s : REngineState) : REngineState :=
  let particlesToExplode :=
    if s.isFistBallActive then s.particleCount else s.activeParticleCount
  { s with
    materialColor := 0xFF1493
    targetPositions := fun j =>
      if j < 3 * s.particleCount then
        if j < 3 * particlesToExplode then
          s.currentPositions j * 8 + (r j - 0.5) * 15
        else if j % 3 = 2 then -1000 else 0
      else s.targetPositions j
    isFistBallActive := false
    activeParticleCount := particlesToExplode
    needsUpdate := true }

/-- Normalized palm coordinates to world coordinates, as in
createFistBall and updateFistBallPosition. -/
noncomputable def toWorld (p : ℝ × ℝ × ℝ) : ℝ × ℝ × ℝ :=
  ((p.1 - 0.5) * 20, (-(p.2.1 - 0.5) * 15, p.2.2 * 10))

/-- Component `j % 3` of a coordinate triple, for flat buffer indexing. -/
noncomputable def vecComp (v : ℝ × ℝ × ℝ) (j : ℕ) : ℝ :=
  if j % 3 = 0 then v.1 else if j % 3 = 1 then v.2.1 else v.2.2

/-- Per-particle sphere point of createFistBall: uniform azimuth `phi`,
polar angle from a uniform cosine, radius = fistBallRadius plus a jitter
in (-0.25, 0.25) drawn from `v`. -/
noncomputable def sphereOffset (phi u v : ℝ) : ℝ × ℝ × ℝ :=
  let cosTheta := u * 2 - 1
  let sinTheta := Real.sqrt (1 - cosTheta * cosTheta)
  let radius := fistBallRadius + (v - 0.5) * 0.5
  (radius * sinTheta * Real.cos phi,
    (radius * sinTheta * Real.sin phi, radius * cosTheta))

/-- ParticleTextRenderer.createFistBall: center = world-mapped palm
position (origin when absent); min(3000, N) particles become active,
each with a stored sphere-surface offset (three draws per particle in
program order: azimuth, cosine, radius jitter) and target = center +
offset; every later particle parks at (0, 0, -1000). -/
noncomputable def createFistBall (r : ℕ → ℝ) (palmPosition : Option (ℝ × ℝ × ℝ))
    (s : REngineState) : REngineState :=
  let center := match palmPosition with
    | some p => toWorld p
    | none => ((0 : ℝ), ((0 : ℝ), (0 : ℝ)))
  let ballParticleCount := min 3000 s.particleCount
  let offsets : ℕ → ℝ := fun j =>
    if j < 3 * ballParticleCount then
      vecComp (sphereOffset (r (3 * (j / 3)) * Real.pi * 2)
        (r (3 * (j / 3) + 1)) (r (3 * (j / 3) + 2))) j
    else s.fistBallOffsets j
  { s with
    materialColor := 0xFFA500
    fistBallCenter := center
    activeParticleCount := ballParticleCount
    fistBallOffsets := offsets
    targetPositions := fun j =>
      if j < 3 * ballParticleCount then vecComp center j + offsets j
      else if j < 3 * s.particleCount then
        if j % 3 = 2 then -1000 else 0
      else s.targetPositions j
    isFistBallActive := true
    needsUpdate := true }

/-- ParticleTextRenderer.updateFistBallPosition: no-op unless the fist
ball is active; otherwise move the center to the world-mapped palm
position and retarget every active particle to center + its stored
offset, without regenerating offsets.  Float32Array writes beyond the
buffer length are dropped, hence the outer bound on the flat index. -/
noncomputable def updateFistBallPosition (palmPosition : ℝ × ℝ × ℝ)
    (s : REngineState) : REngineState :=
  if s.isFistBallActive then
    let center := toWorld palmPosition
    { s with
      fistBallCenter := center
      targetPositions := fun j =>
        if j < 3 * s.particleCount then
          if j < 3 * s.activeParticleCount then
            vecComp center j + s.fistBallOffsets j
          else s.targetPositions j
        else s.targetPositions j
      needsUpdate := true }
  else s

/-- ParticleTextRenderer.resetParticles: min(2000, N) particles are
scattered uniformly in a bounded box (three draws per particle, flat
component index, ranges 30 / 20 / 10), the rest park at (0, 0, -1000). -/
noncomputable def resetParticles (r : ℕ → ℝ) (s : REngineState) : REngineState :=
  let randomParticleCount := min 2000 s.particleCount
  { s with
    materialColor := 0x00FF00
    activeParticleCount := randomParticleCount
    targetPositions := fun j =>
      if j < 3 * randomParticleCount then
        (r j - 0.5) * (if j % 3 = 0 then 30 else if j % 3 = 1 then 20 else 10)
      else if j < 3 * s.particleCount then
        if j % 3 = 2 then -1000 else 0
      else s.targetPositions j
    isFistBallActive := false
    needsUpdate := true }

/-- ParticleTextRenderer.isExplosionState: more than half of the first
min(100, N) particles have a target farther than 10 from the origin. -/
noncomputable def isExplosionState (s : REngineState) : Prop :=
  let sampleSize := min 100 s.particleCount
  let outwardMovingCount := Nat.card {i : ℕ // i < sampleSize ∧
    10 < Real.sqrt (s.targetPositions (3 * i) ^ 2 +
      s.targetPositions (3 * i + 1) ^ 2 + s.targetPositions (3 * i + 2) ^ 2)}
  ((outwardMovingCount : ℝ) / (sampleSize : ℝ)) > 0.5

open Classical in
/-- ParticleTextRenderer.update: no-op when not dirty; otherwise every
component whose distance to its target exceeds the threshold moves
toward it by the mode speed (fist-ball speed when the ball is active,
explosion speed in the explosion state, text speed otherwise); the dirty
flag is cleared exactly when no component moved.  The GPU attribute
bookkeeping of the source (needsUpdate / updateRanges on the geometry)
is external rendering state and is not part of the model. -/
noncomputable def update (s : REngineState) : REngineState :=
  if s.needsUpdate = false then s
  else
    let currentTransitionSpeed :=
      if s.isFistBallActive then fistBallTransitionSpeed
      else if isExplosionState s then explosionTransitionSpeed
      else textTransitionSpeed
    let moved : ℕ → Prop := fun j =>
      j < 3 * s.particleCount ∧
      updateThreshold < |s.targetPositions j - s.currentPositions j|
    { s with
      currentPositions := fun j =>
        if moved j then
          s.currentPositions j +
            (s.targetPositions j - s.currentPositions j) * currentTransitionSpeed
        else s.currentPositions j
      needsUpdate := if ∃ j, moved j then s.needsUpdate else false }

/-- Euclidean norm of the stored fist-ball offset of particle `i`
(observation used to state the sphere-band invariant). -/
noncomputable def offsetNorm (s : REngineState) (i : ℕ) : ℝ :=
  Real.sqrt (s.fistBallOffsets (3 * i) ^ 2 + s.fistBallOffsets (3 * i + 1) ^ 2 +
    s.fistBallOffsets (3 * i + 2) ^ 2)

/-- Sample whose middle-fingertip x coordinate is `q`, all other
coordinates zero; used to drive the wave detector. -/
def xSample (q : ℚ) : HandSample := fun i =>
  if i = 12 then ⟨q, 0, 0⟩ else ⟨0, 0, 0⟩

/-- Sample satisfying both the OK-sign and the open-palm predicates:
thumb tip on the index tip, all four fingertips above their PIPs. -/
def okPalmSample : HandSample := fun i =>
  if i = 6 ∨ i = 10 ∨ i = 14 ∨ i = 18 then ⟨0.5, 0.5, 0⟩
  else ⟨0.5, 0.3, 0⟩

/-- Sample satisfying the finger-heart predicate: thumb tip on the index
tip with both high, middle, ring and pinky tips curled below their
PIPs. -/
def heartSample : HandSample := fun i =>
  if i = 12 ∨ i = 16 ∨ i = 20 then ⟨0.5, 0.7, 0⟩
  else if i = 6 ∨ i = 10 ∨ i = 14 ∨ i = 18 then ⟨0.5, 0.5, 0⟩
  else ⟨0.5, 0.3, 0⟩

/-- Constant all-zero random stream (a valid Math.random trace point). -/
noncomputable def rZero : ℕ → ℝ := fun _ => 0

/-- Constant one-half random stream: every jitter term vanishes. -/
noncomputable def rHalf : ℕ → ℝ := fun _ => 0.5

/-- Concrete text content used by witnesses and counterexamples. -/
def textA : String := "A"

/-- Canvas pixel map that is bright at exactly the two stride-grid
positions (x, y) = (0, 0) and (6, 0), dark everywhere else. -/
def draw0 : String → ℕ → ℕ := fun _ n => if n = 0 ∨ n = 24 then 255 else 0

/-- Small concrete engine state: one particle already at its (zero)
target, dirty, empty cache, fist ball inactive. -/
noncomputable def engineA : REngineState where
  particleCount := 1
  currentPositions := fun _ => 0
  targetPositions := fun _ => 0
  needsUpdate := true
  textCache := []
  isFistBallActive := false
  fistBallCenter := (0, (0, 0))
  fistBallOffsets := fun _ => 0
  activeParticleCount := 0
  materialColor := 0x00ffff

/-- Concrete engine state in cluster mode: two particles, one active,
all current coordinates 1. -/
noncomputable def engineB : REngineState where
  particleCount := 2
  currentPositions := fun _ => 1
  targetPositions := fun _ => 0
  needsUpdate := true
  textCache := []
  isFistBallActive := true
  fistBallCenter := (0, (0, 0))
  fistBallOffsets := fun _ => 0
  activeParticleCount := 1
  materialColor := 0x00ffff

theorem foldl_max_init_le (l : List ℚ) (a : ℚ) : a ≤ l.foldl max a := by
  induction l generalizing a with
  | nil => exact le_refl a
  | cons h t ih => exact le_trans (le_max_left a h) (ih (max a h))

theorem foldl_max_mem_le (l : List ℚ) (a x : ℚ) (hx : x ∈ l) :
    x ≤ l.foldl max a := by
  induction l generalizing a with
  | nil => cases hx
  | cons h t ih =>
    rcases List.mem_cons.mp hx with rfl | hx
    · exact le_trans (le_max_right a x) (foldl_max_init_le t (max a x))
    · exact ih (max a h) hx

theorem foldl_min_le_init (l : List ℚ) (a : ℚ) : l.foldl min a ≤ a := by
  induction l generalizing a with
  | nil => exact le_refl a
  | cons h t ih => exact le_trans (ih (min a h)) (min_le_left a h)

theorem foldl_min_le_mem (l : List ℚ) (a x : ℚ) (hx : x ∈ l) :
    l.foldl min a ≤ x := by
  induction l generalizing a with
  | nil => cases hx
  | cons h t ih =>
    rcases List.mem_cons.mp hx with rfl | hx
    · exact le_trans (foldl_min_le_init t (min a x)) (min_le_right a x)
    · exact ih (min a h) hx

theorem detectGesture_snd (l : HandSample) (h : List ℚ) :
    (detectGesture l h).2 = (checkWave l h).2 := by
  unfold detectGesture
  dsimp only
  repeat first
  | rfl
  | split

theorem checkWave_snd_short (l : HandSample) (h : List ℚ) (hlen : h.length ≤ 19) :
    (checkWave l h).2 = h ++ [(l 12).x] := by
  have hcap : ¬ (20 < (h ++ [(l 12).x]).length) := by simp; omega
  unfold checkWave
  dsimp only
  rw [if_neg hcap]
  split <;> rfl

theorem checkWave_fires (l : HandSample) (h : List ℚ) (u v : ℚ)
    (hlen5 : 4 ≤ h.length) (hlen : h.length ≤ 19)
    (hu : u ∈ h ++ [(l 12).x]) (hv : v ∈ h ++ [(l 12).x])
    (hgap : 0.15 < u - v) :
    (checkWave l h).1 = true := by
  have hcap : ¬ (20 < (h ++ [(l 12).x]).length) := by simp; omega
  have hfive : ¬ ((h ++ [(l 12).x]).length < 5) := by simp; omega
  unfold checkWave
  dsimp only
  rw [if_neg hcap, if_neg hfive]
  simp only [decide_eq_true_eq]
  have hmax : u ≤ maxQ (h ++ [(l 12).x]) := by
    rcases hq : h ++ [(l 12).x] with _ | ⟨a, t⟩
    · simp at hq
    · rcases List.mem_cons.mp (hq ▸ hu) with rfl | hm
      · exact foldl_max_init_le t u
      · exact foldl_max_mem_le t a u hm
  have hmin : minQ (h ++ [(l 12).x]) ≤ v := by
    rcases hq : h ++ [(l 12).x] with _ | ⟨a, t⟩
    · simp at hq
    · rcases List.mem_cons.mp (hq ▸ hv) with rfl | hm
      · exact foldl_min_le_init t v
      · exact foldl_min_le_mem t a v hm
  linarith

/-- Claim C3 (amended): wave detection depends only on the spread of the
rolling buffer of tracking-point x coordinates.  Feeding the tracking
coordinate (the middle-fingertip x) alternating between two values
strictly MORE than 0.15 apart, starting from an empty history, makes the
5th classify call return wave, regardless of the static finger positions
of the sample in that call; the wave check is evaluated before every
static gesture and short-circuits them when it fires.  (The source
compares the spread with a strict inequality, so two values exactly 0.15
apart never fire; the original claim said at least 0.15 apart.) -/
theorem wave_on_fifth_call (u v : ℚ) (l1 l2 l3 l4 l5 : HandSample)
    (hgap : 0.15 < |u - v|)
    (h1 : (l1 12).x = u) (h2 : (l2 12).x = v) (h3 : (l3 12).x = u)
    (h4 : (l4 12).x = v) (h5 : (l5 12).x = u) :
    (detectSeq [l1, l2, l3, l4, l5] []).1 = GestureType.wave := by
  have e1 : (checkWave l1 []).2 = [u] := by
    rw [checkWave_snd_short l1 [] (by simp), h1]; rfl
  have e2 : (checkWave l2 [u]).2 = [u, v] := by
    rw [checkWave_snd_short l2 [u] (by simp), h2]; rfl
  have e3 : (checkWave l3 [u, v]).2 = [u, v, u] := by
    rw [checkWave_snd_short l3 [u, v] (by simp), h3]; rfl
  have e4 : (checkWave l4 [u, v, u]).2 = [u, v, u, v] := by
    rw [checkWave_snd_short l4 [u, v, u] (by simp), h4]; rfl
  have hw : (checkWave l5 [u, v, u, v]).1 = true := by
    rcases lt_abs.mp hgap with hc | hc
    · exact checkWave_fires l5 [u, v, u, v] u v (by simp) (by simp)
        (by rw [h5]; simp) (by simp) hc
    · exact checkWave_fires l5 [u, v, u, v] v u (by simp) (by simp)
        (by simp) (by rw [h5]; simp) (by linarith)
  unfold detectSeq
  simp only [List.foldl]
  rw [detectGesture_snd l1, e1, detectGesture_snd l2, e2,
    detectGesture_snd l3, e3, detectGesture_snd l4, e4]
  unfold detectGesture
  dsimp only
  rw [hw]
  rfl

/-- Claim C3 counterexample: alternating between 0 and 0.15 — two values
exactly 0.15 apart, hence at least 0.15 apart as the claim requires —
does NOT yield wave on the 5th call (the source spread comparison is
strict), so the claim as stated is false. -/
theorem wave_threshold_counterexample :
    ((0.15 : ℚ) - 0 ≥ 0.15) ∧
    (detectSeq [xSample 0, xSample 0.15, xSample 0, xSample 0.15, xSample 0]
      []).1 = GestureType.none ∧
    GestureType.none ≠ GestureType.wave := by
  refine ⟨by norm_num, ?_, by simp⟩
  norm_num [detectSeq, detectGesture, checkWave, xSample, maxQ, minQ,
    isFingerHeart, isVictory, isThumbsUp, isOkSign, isOpenPalm, isFist, sqDist]

/-- Witness for the amended wave claim at the concrete gap 0.2. -/
theorem wave_on_fifth_call_witness :
    (0.15 : ℚ) < |0 - 0.2| ∧
    (detectSeq [xSample 0, xSample 0.2, xSample 0, xSample 0.2, xSample 0]
      []).1 = GestureType.wave :=
  ⟨by rw [abs_sub_comm]; rw [abs_of_nonneg (by norm_num)]; norm_num,
    wave_on_fifth_call 0 0.2 (xSample 0) (xSample 0.2) (xSample 0)
      (xSample 0.2) (xSample 0)
      (by rw [abs_sub_comm]; rw [abs_of_nonneg (by norm_num)]; norm_num)
      rfl rfl rfl rfl rfl⟩

/-- Claim C4: a sample satisfying both the OK-sign predicate and the
open-palm predicate, on a call where no earlier-precedence gesture
(wave, finger-heart, victory, thumbs-up) fires, classifies as ok_sign
and never as open_palm. -/
theorem okSign_precedes_openPalm (l : HandSample) (hist : List ℚ)
    (hw : (checkWave l hist).1 = false)
    (hfh : isFingerHeart l = false) (hv : isVictory l = false)
    (htu : isThumbsUp l = false)
    (hok : isOkSign l = true) (hop : isOpenPalm l = true) :
    (detectGesture l hist).1 = GestureType.ok_sign ∧
    (detectGesture l hist).1 ≠ GestureType.open_palm := by
  unfold detectGesture
  dsimp only
  rw [hw, hfh, hv, htu, hok]
  simp

/-- Witness for the OK-sign precedence claim: a concrete sample with the
thumb tip on the index tip and all four fingers extended. -/
theorem okSign_precedes_openPalm_witness :
    (checkWave okPalmSample []).1 = false ∧ isFingerHeart okPalmSample = false ∧
    isVictory okPalmSample = false ∧ isThumbsUp okPalmSample = false ∧
    isOkSign okPalmSample = true ∧ isOpenPalm okPalmSample = true ∧
    (detectGesture okPalmSample []).1 = GestureType.ok_sign :=
  ⟨by norm_num [checkWave, okPalmSample],
    by norm_num [isFingerHeart, okPalmSample, sqDist],
    by norm_num [isVictory, okPalmSample],
    by norm_num [isThumbsUp, okPalmSample],
    by norm_num [isOkSign, okPalmSample, sqDist],
    by norm_num [isOpenPalm, okPalmSample],
    (okSign_precedes_openPalm okPalmSample []
      (by norm_num [checkWave, okPalmSample])
      (by norm_num [isFingerHeart, okPalmSample, sqDist])
      (by norm_num [isVictory, okPalmSample])
      (by norm_num [isThumbsUp, okPalmSample])
      (by norm_num [isOkSign, okPalmSample, sqDist])
      (by norm_num [isOpenPalm, okPalmSample])).1⟩

/-- Claim C9: the finger-heart predicate of the classifier holds exactly
when the thumb-tip-to-index-tip distance is below the 0.08 pinch
threshold, the middle, ring and pinky tips are curled (tip y above PIP
y) and the index tip is not curled; when it holds and wave does not
fire, classify returns finger_heart. -/
theorem fingerHeart_matches_spec (l : HandSample) (hist : List ℚ) :
    (isFingerHeart l = true ↔ fingerHeartSpec l) ∧
    ((checkWave l hist).1 = false → isFingerHeart l = true →
      (detectGesture l hist).1 = GestureType.finger_heart) := by
  constructor
  · unfold isFingerHeart fingerHeartSpec
    simp only [Bool.and_eq_true, decide_eq_true_eq, gt_iff_lt]
    tauto
  · intro hw hfh
    unfold detectGesture
    dsimp only
    rw [hw, hfh]
    simp

/-- Witness for the finger-heart claim at a concrete heart-shaped
sample. -/
theorem fingerHeart_matches_spec_witness :
    (checkWave heartSample []).1 = false ∧ isFingerHeart heartSample = true ∧
    (detectGesture heartSample []).1 = GestureType.finger_heart :=
  ⟨by norm_num [checkWave, heartSample],
    by norm_num [isFingerHeart, heartSample, sqDist],
    (fingerHeart_matches_spec heartSample []).2
      (by norm_num [checkWave, heartSample])
      (by norm_num [isFingerHeart, heartSample, sqDist])⟩

theorem update_not_dirty (t : REngineState) (h : t.needsUpdate = false) :
    update t = t := by
  unfold update
  rw [if_pos h]

theorem update_steady_form (s : REngineState)
    (hthr : ∀ j < 3 * s.particleCount,
      |s.currentPositions j - s.targetPositions j| ≤ updateThreshold)
    (hd : s.needsUpdate = true) :
    update s = { s with needsUpdate := false } := by
  have hmv : ∀ j, ¬(j < 3 * s.particleCount ∧
      updateThreshold < |s.targetPositions j - s.currentPositions j|) := by
    rintro j ⟨hj, habs⟩
    rw [abs_sub_comm] at habs
    linarith [hthr j hj]
  unfold update
  rw [if_neg (by simp [hd])]
  dsimp only
  obtain ⟨pc, cur, tgt, nd, tc, fba, fbc, fbo, apc, mc⟩ := s
  simp only [REngineState.mk.injEq, and_true, true_and]
  constructor
  · funext j
    exact if_neg (hmv j)
  · rw [if_neg (by rintro ⟨j, hj⟩; exact hmv j hj)]

/-- Claim C6: update is idempotent at steady state.  When every buffer
component is within the minimum-movement threshold of its target, any
number of update calls leaves every current position unchanged and, from
the first call on, the dirty flag is cleared; moreover update is a no-op
on any state whose dirty flag is not set. -/
theorem update_idempotent_steady (s : REngineState)
    (hthr : ∀ j < 3 * s.particleCount,
      |s.currentPositions j - s.targetPositions j| ≤ updateThreshold) :
    (∀ n : ℕ, (update^[n] s).currentPositions = s.currentPositions) ∧
    (∀ n : ℕ, 1 ≤ n → (update^[n] s).needsUpdate = false) ∧
    (∀ t : REngineState, t.needsUpdate = false → update t = t) := by
  cases hd : s.needsUpdate with
  | false =>
    have hfix : ∀ n : ℕ, update^[n] s = s :=
      fun n => Function.iterate_fixed (update_not_dirty s hd) n
    exact ⟨fun n => by rw [hfix n], fun n _ => by rw [hfix n]; exact hd,
      update_not_dirty⟩
  | true =>
    have h1 : update s = { s with needsUpdate := false } :=
      update_steady_form s hthr hd
    have h2 : ∀ n : ℕ, update^[n] { s with needsUpdate := false } =
        { s with needsUpdate := false } :=
      fun n => Function.iterate_fixed (update_not_dirty _ rfl) n
    have h3 : ∀ n : ℕ, 1 ≤ n → update^[n] s = { s with needsUpdate := false } := by
      intro n hn
      obtain ⟨m, rfl⟩ := Nat.exists_eq_add_of_le hn
      rw [add_comm, Function.iterate_add_apply, Function.iterate_one, h1, h2 m]
    refine ⟨?_, fun n hn => by rw [h3 n hn], update_not_dirty⟩
    intro n
    cases n with
    | zero => rfl
    | succ m => rw [h3 (m + 1) (by omega)]

/-- Witness for the steady-state claim at a concrete settled state. -/
theorem update_idempotent_steady_witness :
    (∀ j < 3 * engineA.particleCount,
      |engineA.currentPositions j - engineA.targetPositions j| ≤
        updateThreshold) ∧
    (∀ n : ℕ, (update^[n] engineA).currentPositions =
      engineA.currentPositions) :=
  ⟨fun j _ => by norm_num [engineA, updateThreshold],
    (update_idempotent_steady engineA
      (fun j _ => by norm_num [engineA, updateThreshold])).1⟩

theorem update_particleCount (s : REngineState) :
    (update s).particleCount = s.particleCount := by
  unfold update
  split <;> rfl

theorem update_targetPositions (s : REngineState) :
    (update s).targetPositions = s.targetPositions := by
  unfold update
  split <;> rfl

theorem update_current_beyond (s : REngineState) (j : ℕ)
    (hj : 3 * s.particleCount ≤ j) :
    (update s).currentPositions j = s.currentPositions j := by
  unfold update
  split
  · rfl
  · dsimp only
    rw [if_neg (by rintro ⟨h1, -⟩; omega)]

open Classical in
theorem update_current_form (s : REngineState) (j : ℕ) :
    (update s).currentPositions j = s.currentPositions j ∨
    ∃ sp : ℝ, 0 < sp ∧ sp < 1 ∧
      (update s).currentPositions j = s.currentPositions j +
        (s.targetPositions j - s.currentPositions j) * sp := by
  by_cases hb : s.needsUpdate = false
  · left
    rw [update_not_dirty s hb]
  · unfold update
    rw [if_neg hb]
    dsimp only
    by_cases hm : j < 3 * s.particleCount ∧
        updateThreshold < |s.targetPositions j - s.currentPositions j|
    · right
      refine ⟨_, ?_, ?_, if_pos hm⟩ <;> split_ifs <;>
        norm_num [fistBallTransitionSpeed, explosionTransitionSpeed,
          textTransitionSpeed]
    · left
      exact if_neg hm

theorem update_monotone_no_overshoot (s : REngineState) (j : ℕ) :
    |s.targetPositions j - (update s).currentPositions j| ≤
      |s.targetPositions j - s.currentPositions j| ∧
    0 ≤ (s.targetPositions j - (update s).currentPositions j) *
      (s.targetPositions j - s.currentPositions j) := by
  rcases update_current_form s j with h | ⟨sp, hsp0, hsp1, h⟩
  · rw [h]
    exact ⟨le_refl _, mul_self_nonneg _⟩
  · rw [h]
    constructor
    · have he : s.targetPositions j - (s.currentPositions j +
          (s.targetPositions j - s.currentPositions j) * sp) =
          (s.targetPositions j - s.currentPositions j) * (1 - sp) := by ring
      rw [he, abs_mul, abs_of_nonneg (show (0:ℝ) ≤ 1 - sp by linarith)]
      exact mul_le_of_le_one_right (abs_nonneg _) (by linarith)
    · have he : (s.targetPositions j - (s.currentPositions j +
          (s.targetPositions j - s.currentPositions j) * sp)) *
          (s.targetPositions j - s.currentPositions j) =
          (s.targetPositions j - s.currentPositions j) ^ 2 * (1 - sp) := by ring
      rw [he]
      exact mul_nonneg (sq_nonneg _) (by linarith)

theorem commands_preserve_current (s : REngineState) (r : ℕ → ℝ)
    (draw : String → ℕ → ℕ) (text : String) (color : ℕ)
    (p : Option (ℝ × ℝ × ℝ)) (q : ℝ × ℝ × ℝ) :
    (updateText draw text color s).currentPositions = s.currentPositions ∧
    (explode r s).currentPositions = s.currentPositions ∧
    (createFistBall r p s).currentPositions = s.currentPositions ∧
    (updateFistBallPosition q s).currentPositions = s.currentPositions ∧
    (resetParticles r s).currentPositions = s.currentPositions := by
  refine ⟨rfl, rfl, rfl, ?_, rfl⟩
  cases h : s.isFistBallActive <;> simp [updateFistBallPosition, h]

theorem commands_preserve_particleCount (s : REngineState) (r : ℕ → ℝ)
    (draw : String → ℕ → ℕ) (text : String) (color : ℕ)
    (p : Option (ℝ × ℝ × ℝ)) (q : ℝ × ℝ × ℝ) :
    (updateText draw text color s).particleCount = s.particleCount ∧
    (explode r s).particleCount = s.particleCount ∧
    (createFistBall r p s).particleCount = s.particleCount ∧
    (updateFistBallPosition q s).particleCount = s.particleCount ∧
    (resetParticles r s).particleCount = s.particleCount := by
  refine ⟨rfl, rfl, rfl, ?_, rfl⟩
  cases h : s.isFistBallActive <;> simp [updateFistBallPosition, h]

theorem commands_preserve_beyond (s : REngineState) (r : ℕ → ℝ)
    (draw : String → ℕ → ℕ) (text : String) (color : ℕ)
    (p : Option (ℝ × ℝ × ℝ)) (q : ℝ × ℝ × ℝ) (j : ℕ)
    (hj : 3 * s.particleCount ≤ j) :
    (updateText draw text color s).targetPositions j = s.targetPositions j ∧
    (explode r s).targetPositions j = s.targetPositions j ∧
    (createFistBall r p s).targetPositions j = s.targetPositions j ∧
    (updateFistBallPosition q s).targetPositions j = s.targetPositions j ∧
    (resetParticles r s).targetPositions j = s.targetPositions j := by
  refine ⟨?_, ?_, ?_, ?_, ?_⟩
  · show (if j < 3 * s.particleCount then _ else s.targetPositions j) = _
    rw [if_neg (by omega)]
  · show (if j < 3 * s.particleCount then _ else s.targetPositions j) = _
    rw [if_neg (by omega)]
  · show (if j < 3 * min 3000 s.particleCount then _
      else if j < 3 * s.particleCount then _ else s.targetPositions j) = _
    rw [if_neg (by omega), if_neg (by omega)]
  · cases h : s.isFistBallActive
    · simp [updateFistBallPosition, h]
    · simp only [updateFistBallPosition, h, if_true]
      rw [if_neg (by omega)]
  · show (if j < 3 * min 2000 s.particleCount then _
      else if j < 3 * s.particleCount then _ else s.targetPositions j) = _
    rw [if_neg (by omega), if_neg (by omega)]

/-- Claim C8: the particle buffers keep their shape invariants.  The
particle count is fixed at construction and preserved by the step and by
every effect command, and neither buffer is ever written beyond index
3N.  Effect commands write only targets (current positions unchanged);
the integration step mutates only current positions (targets unchanged)
and moves every component monotonically toward its target without
overshooting, each mode speed lying strictly between 0 and 1. -/
theorem particle_buffer_invariants (s : REngineState) (r : ℕ → ℝ)
    (draw : String → ℕ → ℕ) (text : String) (color : ℕ)
    (p : Option (ℝ × ℝ × ℝ)) (q : ℝ × ℝ × ℝ) (n : ℕ) :
    (initEngine r n).particleCount = n ∧
    (update s).particleCount = s.particleCount ∧
    (update s).targetPositions = s.targetPositions ∧
    (∀ j, 3 * s.particleCount ≤ j →
      (update s).currentPositions j = s.currentPositions j) ∧
    (∀ j, |s.targetPositions j - (update s).currentPositions j| ≤
      |s.targetPositions j - s.currentPositions j|) ∧
    (∀ j, 0 ≤ (s.targetPositions j - (update s).currentPositions j) *
      (s.targetPositions j - s.currentPositions j)) ∧
    (0 < textTransitionSpeed ∧ textTransitionSpeed < 1) ∧
    (0 < fistBallTransitionSpeed ∧ fistBallTransitionSpeed < 1) ∧
    (0 < explosionTransitionSpeed ∧ explosionTransitionSpeed < 1) ∧
    (updateText draw text color s).currentPositions = s.currentPositions ∧
    (explode r s).currentPositions = s.currentPositions ∧
    (createFistBall r p s).currentPositions = s.currentPositions ∧
    (updateFistBallPosition q s).currentPositions = s.currentPositions ∧
    (resetParticles r s).currentPositions = s.currentPositions ∧
    (updateText draw text color s).particleCount = s.particleCount ∧
    (explode r s).particleCount = s.particleCount ∧
    (createFistBall r p s).particleCount = s.particleCount ∧
    (updateFistBallPosition q s).particleCount = s.particleCount ∧
    (resetParticles r s).particleCount = s.particleCount ∧
    (∀ j, 3 * s.particleCount ≤ j →
      (updateText draw text color s).targetPositions j = s.targetPositions j ∧
      (explode r s).targetPositions j = s.targetPositions j ∧
      (createFistBall r p s).targetPositions j = s.targetPositions j ∧
      (updateFistBallPosition q s).targetPositions j = s.targetPositions j ∧
      (resetParticles r s).targetPositions j = s.targetPositions j) := by
  obtain ⟨c1, c2, c3, c4, c5⟩ :=
    commands_preserve_current s r draw text color p q
  obtain ⟨p1, p2, p3, p4, p5⟩ :=
    commands_preserve_particleCount s r draw text color p q
  exact ⟨rfl, update_particleCount s, update_targetPositions s,
    fun j hj => update_current_beyond s j hj,
    fun j => (update_monotone_no_overshoot s j).1,
    fun j => (update_monotone_no_overshoot s j).2,
    ⟨by norm_num [textTransitionSpeed], by norm_num [textTransitionSpeed]⟩,
    ⟨by norm_num [fistBallTransitionSpeed], by norm_num [fistBallTransitionSpeed]⟩,
    ⟨by norm_num [explosionTransitionSpeed], by norm_num [explosionTransitionSpeed]⟩,
    c1, c2, c3, c4, c5, p1, p2, p3, p4, p5,
    fun j hj => commands_preserve_beyond s r draw text color p q j hj⟩

/-- Witness for the buffer invariants at a concrete state and index. -/
theorem particle_buffer_invariants_witness :
    3 * engineA.particleCount ≤ 5 ∧
    (update engineA).currentPositions 5 = engineA.currentPositions 5 :=
  ⟨by norm_num [engineA],
    (particle_buffer_invariants engineA rZero draw0 textA 0x00ffff
      Option.none (0, (0, 0)) 1).2.2.2.1 5 (by norm_num [engineA])⟩

theorem createFistBall_fields (s : REngineState) (r : ℕ → ℝ) (A : ℝ × ℝ × ℝ) :
    (createFistBall r (some A) s).isFistBallActive = true ∧
    (createFistBall r (some A) s).activeParticleCount = min 3000 s.particleCount ∧
    (createFistBall r (some A) s).particleCount = s.particleCount ∧
    (createFistBall r (some A) s).fistBallCenter = toWorld A :=
  ⟨rfl, rfl, rfl, rfl⟩

theorem createFistBall_target_active (s : REngineState) (r : ℕ → ℝ)
    (A : ℝ × ℝ × ℝ) (j : ℕ) (hj : j < 3 * min 3000 s.particleCount) :
    (createFistBall r (some A) s).targetPositions j =
      vecComp (toWorld A) j + (createFistBall r (some A) s).fistBallOffsets j := by
  simp only [createFistBall]
  rw [if_pos hj]

/-- Claim C5: after createFistBall at anchor A followed by
updateFistBallPosition at anchor B, every active particle target equals
the world-mapped B plus the offset stored by the createFistBall call,
that is newTarget = world(B) + (oldTarget - world(A)); offsets are not
regenerated; and updateFistBallPosition is a no-op when cluster mode is
not active, so the relative cluster shape is preserved. -/
theorem cluster_reanchor_preserves_offsets (s : REngineState) (r : ℕ → ℝ)
    (A B : ℝ × ℝ × ℝ) :
    (∀ j < 3 * (createFistBall r (some A) s).activeParticleCount,
      (updateFistBallPosition B (createFistBall r (some A) s)).targetPositions j =
        vecComp (toWorld B) j +
          ((createFistBall r (some A) s).targetPositions j -
            vecComp (toWorld A) j)) ∧
    (updateFistBallPosition B (createFistBall r (some A) s)).fistBallOffsets =
      (createFistBall r (some A) s).fistBallOffsets ∧
    (∀ t : REngineState, t.isFistBallActive = false →
      updateFistBallPosition B t = t) := by
  obtain ⟨hact, hcnt, hpc, -⟩ := createFistBall_fields s r A
  refine ⟨?_, ?_, ?_⟩
  · intro j hj
    rw [hcnt] at hj
    have hjN : j < 3 * s.particleCount := by
      have := min_le_right 3000 s.particleCount
      omega
    have h1 : (updateFistBallPosition B (createFistBall r (some A) s)).targetPositions j =
        vecComp (toWorld B) j + (createFistBall r (some A) s).fistBallOffsets j := by
      simp only [updateFistBallPosition, hact, if_true]
      rw [if_pos (by rw [hpc]; exact hjN), if_pos (by rw [hcnt]; exact hj)]
    rw [h1, createFistBall_target_active s r A j hj]
    ring
  · simp only [updateFistBallPosition, hact, if_true]
  · intro t ht
    simp [updateFistBallPosition, ht]

/-- Witness for the re-anchoring claim at concrete anchors and the first
active particle component. -/
theorem cluster_reanchor_preserves_offsets_witness :
    0 < 3 * (createFistBall rZero (some (0.5, (0.5, 0))) engineA).activeParticleCount ∧
    (updateFistBallPosition (0.25, (0.25, 1))
        (createFistBall rZero (some (0.5, (0.5, 0))) engineA)).targetPositions 0 =
      vecComp (toWorld (0.25, (0.25, 1))) 0 +
        ((createFistBall rZero (some (0.5, (0.5, 0))) engineA).targetPositions 0 -
          vecComp (toWorld (0.5, (0.5, 0))) 0) :=
  ⟨by norm_num [createFistBall, engineA],
    (cluster_reanchor_preserves_offsets engineA rZero (0.5, (0.5, 0))
      (0.25, (0.25, 1))).1 0 (by norm_num [createFistBall, engineA])⟩

theorem sphereOffset_sq_sum (phi u v : ℝ) (hu0 : 0 ≤ u) (hu1 : u < 1) :
    (sphereOffset phi u v).1 ^ 2 + (sphereOffset phi u v).2.1 ^ 2 +
      (sphereOffset phi u v).2.2 ^ 2 =
    (fistBallRadius + (v - 0.5) * 0.5) ^ 2 := by
  unfold sphereOffset
  dsimp only
  have hs : Real.sqrt (1 - (u * 2 - 1) * (u * 2 - 1)) ^ 2 =
      1 - (u * 2 - 1) * (u * 2 - 1) :=
    Real.sq_sqrt (by nlinarith)
  have hcs : Real.cos phi ^ 2 + Real.sin phi ^ 2 = 1 :=
    Real.cos_sq_add_sin_sq phi
  have key : ∀ R cp sp c st : ℝ, cp ^ 2 + sp ^ 2 = 1 → st ^ 2 = 1 - c * c →
      (R * st * cp) ^ 2 + (R * st * sp) ^ 2 + (R * c) ^ 2 = R ^ 2 := by
    intro R cp sp c st h1 h2
    have he : (R * st * cp) ^ 2 + (R * st * sp) ^ 2 + (R * c) ^ 2 =
        R ^ 2 * (st ^ 2 * (cp ^ 2 + sp ^ 2)) + R ^ 2 * (c * c) := by ring
    rw [he, h1, h2]
    ring
  exact key _ _ _ _ _ hcs hs

theorem createFistBall_center_target (s : REngineState) (r : ℕ → ℝ)
    (p : Option (ℝ × ℝ × ℝ)) (j : ℕ)
    (hj : j < 3 * min 3000 s.particleCount) :
    (createFistBall r p s).targetPositions j =
      vecComp (createFistBall r p s).fistBallCenter j +
        (createFistBall r p s).fistBallOffsets j := by
  simp only [createFistBall]
  rw [if_pos hj]

theorem createFistBall_offsets_eq (s : REngineState) (r : ℕ → ℝ)
    (p : Option (ℝ × ℝ × ℝ)) (i : ℕ) (hi : i < min 3000 s.particleCount) :
    (createFistBall r p s).fistBallOffsets (3 * i) =
      (sphereOffset (r (3 * i) * Real.pi * 2) (r (3 * i + 1))
        (r (3 * i + 2))).1 ∧
    (createFistBall r p s).fistBallOffsets (3 * i + 1) =
      (sphereOffset (r (3 * i) * Real.pi * 2) (r (3 * i + 1))
        (r (3 * i + 2))).2.1 ∧
    (createFistBall r p s).fistBallOffsets (3 * i + 2) =
      (sphereOffset (r (3 * i) * Real.pi * 2) (r (3 * i + 1))
        (r (3 * i + 2))).2.2 := by
  have d0 : 3 * (3 * i / 3) = 3 * i := by omega
  have d1 : 3 * ((3 * i + 1) / 3) = 3 * i := by omega
  have d2 : 3 * ((3 * i + 2) / 3) = 3 * i := by omega
  refine ⟨?_, ?_, ?_⟩
  · simp only [createFistBall]
    rw [if_pos (show 3 * i < 3 * min 3000 s.particleCount by omega), d0]
    unfold vecComp
    rw [if_pos (show 3 * i % 3 = 0 by omega)]
  · simp only [createFistBall]
    rw [if_pos (show 3 * i + 1 < 3 * min 3000 s.particleCount by omega), d1]
    unfold vecComp
    rw [if_neg (show ¬ (3 * i + 1) % 3 = 0 by omega),
      if_pos (show (3 * i + 1) % 3 = 1 by omega)]
  · simp only [createFistBall]
    rw [if_pos (show 3 * i + 2 < 3 * min 3000 s.particleCount by omega), d2]
    unfold vecComp
    rw [if_neg (show ¬ (3 * i + 2) % 3 = 0 by omega),
      if_neg (show ¬ (3 * i + 2) % 3 = 1 by omega)]

/-- Claim C10: after createFistBall, every active particle offset lies
exactly on a sphere around the origin whose radius is the fixed base
radius plus a jitter of magnitude at most 0.25, hence its Euclidean norm
lies in [2.75, 3.25]; and every active cluster target equals the anchor
center plus the stored offset, so it sits in that distance band around
the anchor. -/
theorem fistBall_offsets_on_sphere (s : REngineState) (r : ℕ → ℝ)
    (p : Option (ℝ × ℝ × ℝ)) (hr : ∀ n, 0 ≤ r n ∧ r n < 1) (i : ℕ)
    (hi : i < (createFistBall r p s).activeParticleCount) :
    offsetNorm (createFistBall r p s) i =
      fistBallRadius + (r (3 * i + 2) - 0.5) * 0.5 ∧
    |(r (3 * i + 2) - 0.5) * 0.5| ≤ 0.25 ∧
    2.75 ≤ offsetNorm (createFistBall r p s) i ∧
    offsetNorm (createFistBall r p s) i ≤ 3.25 ∧
    (∀ c < 3, (createFistBall r p s).targetPositions (3 * i + c) =
      vecComp (createFistBall r p s).fistBallCenter (3 * i + c) +
        (createFistBall r p s).fistBallOffsets (3 * i + c)) := by
  have hi2 : i < min 3000 s.particleCount := hi
  obtain ⟨e0, e1, e2⟩ := createFistBall_offsets_eq s r p i hi2
  obtain ⟨hv0, hv1⟩ := hr (3 * i + 2)
  obtain ⟨hu0, hu1⟩ := hr (3 * i + 1)
  have hr0 : (2.75 : ℝ) ≤ fistBallRadius + (r (3 * i + 2) - 0.5) * 0.5 := by
    norm_num [fistBallRadius]
    linarith
  have hr1 : fistBallRadius + (r (3 * i + 2) - 0.5) * 0.5 ≤ 3.25 := by
    norm_num [fistBallRadius]
    linarith
  have hnorm : offsetNorm (createFistBall r p s) i =
      fistBallRadius + (r (3 * i + 2) - 0.5) * 0.5 := by
    unfold offsetNorm
    rw [e0, e1, e2, sphereOffset_sq_sum _ _ _ hu0 hu1]
    exact Real.sqrt_sq (by linarith)
  refine ⟨hnorm, ?_, by rw [hnorm]; exact hr0, by rw [hnorm]; exact hr1, ?_⟩
  · rw [abs_mul, abs_of_nonneg (show (0:ℝ) ≤ 0.5 by norm_num)]
    have habs : |r (3 * i + 2) - 0.5| ≤ 0.5 :=
      abs_le.mpr ⟨by linarith, by linarith⟩
    linarith
  · intro c hc
    exact createFistBall_center_target s r p (3 * i + c) (by omega)

/-- Witness for the sphere-band claim with the all-zero random stream. -/
theorem fistBall_offsets_on_sphere_witness :
    (∀ n, 0 ≤ rZero n ∧ rZero n < 1) ∧
    0 < (createFistBall rZero Option.none engineA).activeParticleCount ∧
    2.75 ≤ offsetNorm (createFistBall rZero Option.none engineA) 0 :=
  ⟨fun _ => ⟨le_refl 0, zero_lt_one⟩,
    by norm_num [createFistBall, engineA],
    (fistBall_offsets_on_sphere engineA rZero Option.none
      (fun _ => ⟨le_refl 0, zero_lt_one⟩) 0
      (by norm_num [createFistBall, engineA])).2.2.1⟩

/-- Claim C1 (amended): when cluster (fist-ball) mode is NOT active,
explode leaves exactly the active particles with targets equal to their
current position scaled by the outward factor 8 plus a random jitter of
magnitude at most 7.5 per component, and parks every other particle at
(0, 0, -1000); with active-count 0 it scales no particle outward.  When
cluster mode IS active, explode instead scales every one of the
particleCount particles outward and parks none.  In both cases the
cluster-follow flag is cleared, the engine is marked dirty, and the
active count becomes the explode count.  (The original claim asserted
the active-count behaviour in every mode including cluster mode; the
source explodes the whole cloud in cluster mode.) -/
theorem explode_active_targets (s : REngineState) (r : ℕ → ℝ)
    (hr : ∀ n, 0 ≤ r n ∧ r n < 1)
    (hk : s.activeParticleCount ≤ s.particleCount) :
    (s.isFistBallActive = false →
      (∀ j < 3 * s.activeParticleCount,
        (explode r s).targetPositions j =
          s.currentPositions j * 8 + (r j - 0.5) * 15) ∧
      (∀ j, 3 * s.activeParticleCount ≤ j → j < 3 * s.particleCount →
        (explode r s).targetPositions j =
          (if j % 3 = 2 then (-1000 : ℝ) else 0))) ∧
    (s.isFistBallActive = true →
      ∀ j < 3 * s.particleCount,
        (explode r s).targetPositions j =
          s.currentPositions j * 8 + (r j - 0.5) * 15) ∧
    (∀ j, |(r j - 0.5) * 15| ≤ 7.5) ∧
    (explode r s).isFistBallActive = false ∧
    (explode r s).needsUpdate = true ∧
    (explode r s).activeParticleCount =
      (if s.isFistBallActive then s.particleCount else s.activeParticleCount) := by
  refine ⟨?_, ?_, ?_, rfl, rfl, rfl⟩
  · intro hf
    constructor
    · intro j hj
      simp only [explode, hf]
      rw [if_pos (by omega), if_pos (by simpa using hj)]
    · intro j hj1 hj2
      simp only [explode, hf]
      rw [if_pos hj2, if_neg (by simpa using hj1)]
  · intro hf j hj
    simp only [explode, hf]
    rw [if_pos hj, if_pos (by simpa using hj)]
  · intro j
    obtain ⟨h0, h1⟩ := hr j
    rw [abs_mul, abs_of_nonneg (show (0:ℝ) ≤ 15 by norm_num)]
    have habs : |r j - 0.5| ≤ 0.5 := abs_le.mpr ⟨by linarith, by linarith⟩
    linarith

/-- Witness for the amended explode claim at a concrete settled state. -/
theorem explode_active_targets_witness :
    (∀ n, 0 ≤ rZero n ∧ rZero n < 1) ∧
    engineA.activeParticleCount ≤ engineA.particleCount ∧
    (explode rZero engineA).needsUpdate = true :=
  ⟨fun _ => ⟨le_refl 0, zero_lt_one⟩, by decide,
    (explode_active_targets engineA rZero (fun _ => ⟨le_refl 0, zero_lt_one⟩)
      (by decide)).2.2.2.2.1⟩

/-- Claim C1 counterexample: in cluster (fist-ball) mode with exactly
one of two particles active, explode scales particle 1 — which is beyond
the active count and which the claim requires to be parked at
(0, 0, -1000) — by the outward factor instead: its x target component
becomes 8, not 0. -/
theorem explode_cluster_counterexample :
    engineB.isFistBallActive = true ∧
    engineB.activeParticleCount = 1 ∧
    engineB.particleCount = 2 ∧
    (explode rHalf engineB).targetPositions 3 = 8 ∧
    (8 : ℝ) ≠ 0 := by
  refine ⟨rfl, rfl, rfl, ?_, by norm_num⟩
  simp only [explode, engineB, rHalf]
  norm_num

theorem cacheFind_none_tail (key : String)
    (l : List (String × (List (ℝ × ℝ) × ℕ)))
    (h : cacheFind key l = none) : cacheFind key l.tail = none := by
  cases l with
  | nil => rfl
  | cons e t =>
    unfold cacheFind at h
    by_cases he : e.1 = key
    · rw [if_pos he] at h
      cases h
    · rw [if_neg he] at h
      exact h

theorem cacheFind_append_self (key : String) (v : List (ℝ × ℝ) × ℕ)
    (l : List (String × (List (ℝ × ℝ) × ℕ)))
    (h : cacheFind key l = none) :
    cacheFind key (l ++ [(key, v)]) = some v := by
  induction l with
  | nil => simp [cacheFind]
  | cons e t ih =>
    rw [List.cons_append]
    unfold cacheFind at h ⊢
    by_cases he : e.1 = key
    · rw [if_pos he] at h
      cases h
    · rw [if_neg he] at h ⊢
      exact ih h

theorem assignTextTargets_idem (n : ℕ) (pts : List (ℝ × ℝ)) (old : ℕ → ℝ) :
    assignTextTargets n pts (assignTextTargets n pts old) =
      assignTextTargets n pts old := by
  funext j
  simp only [assignTextTargets]
  split <;> rfl

theorem updateText_fields_hit (draw : String → ℕ → ℕ) (text : String)
    (color : ℕ) (t : REngineState) (e : List (ℝ × ℝ) × ℕ)
    (hhit : cacheFind (text ++ "_" ++ toString (makeFluorescent color))
      t.textCache = some e) :
    (updateText draw text color t).textCache = t.textCache ∧
    (updateText draw text color t).activeParticleCount = e.1.length ∧
    (updateText draw text color t).targetPositions =
      assignTextTargets t.particleCount e.1 t.targetPositions ∧
    (updateText draw text color t).particleCount = t.particleCount := by
  refine ⟨?_, ?_, ?_, rfl⟩ <;> simp only [updateText, hhit]

theorem updateText_fields_miss (draw : String → ℕ → ℕ) (text : String)
    (color : ℕ) (t : REngineState)
    (hmiss : cacheFind (text ++ "_" ++ toString (makeFluorescent color))
      t.textCache = none) :
    (updateText draw text color t).textCache =
      (if 10 < t.textCache.length then t.textCache.tail else t.textCache) ++
        [(text ++ "_" ++ toString (makeFluorescent color),
          (generateTextPoints draw text, makeFluorescent color))] ∧
    (updateText draw text color t).activeParticleCount =
      (generateTextPoints draw text).length ∧
    (updateText draw text color t).targetPositions =
      assignTextTargets t.particleCount (generateTextPoints draw text)
        t.targetPositions ∧
    (updateText draw text color t).particleCount = t.particleCount := by
  refine ⟨?_, ?_, ?_, rfl⟩ <;> simp only [updateText, hmiss]

/-- Claim C7: two consecutive showContent calls with identical text and
color produce identical target positions for every particle; the second
call is served from the content cache (its key is present after the
first call) and leaves the cache unchanged, so it does not grow; the
cache stays bounded (at most 11 entries) and, when a miss occurs while
the bound is exceeded, the oldest (head) entry is evicted first. -/
theorem updateText_cache_hit (draw : String → ℕ → ℕ) (text : String)
    (color : ℕ) (s : REngineState) :
    (∃ e, cacheFind (text ++ "_" ++ toString (makeFluorescent color))
      (updateText draw text color s).textCache = some e) ∧
    (updateText draw text color (updateText draw text color s)).textCache =
      (updateText draw text color s).textCache ∧
    (updateText draw text color (updateText draw text color s)).targetPositions =
      (updateText draw text color s).targetPositions ∧
    (updateText draw text color (updateText draw text color s)).activeParticleCount =
      (updateText draw text color s).activeParticleCount ∧
    (s.textCache.length ≤ 11 →
      (updateText draw text color s).textCache.length ≤ 11) ∧
    (cacheFind (text ++ "_" ++ toString (makeFluorescent color)) s.textCache =
        none →
      10 < s.textCache.length →
      (updateText draw text color s).textCache =
        s.textCache.tail ++ [(text ++ "_" ++ toString (makeFluorescent color),
          (generateTextPoints draw text, makeFluorescent color))]) := by
  cases hhit : cacheFind (text ++ "_" ++ toString (makeFluorescent color))
      s.textCache with
  | some e =>
    obtain ⟨hc1, ha1, ht1, hp1⟩ := updateText_fields_hit draw text color s e hhit
    have hfind : cacheFind (text ++ "_" ++ toString (makeFluorescent color))
        (updateText draw text color s).textCache = some e := by
      rw [hc1, hhit]
    obtain ⟨hc2, ha2, ht2, -⟩ :=
      updateText_fields_hit draw text color (updateText draw text color s) e hfind
    refine ⟨⟨e, hfind⟩, hc2, ?_, by rw [ha2, ha1],
      fun hb => by rw [hc1]; exact hb,
      fun hmiss _ => Option.noConfusion hmiss⟩
    rw [ht2, hp1, ht1, assignTextTargets_idem]
  | none =>
    obtain ⟨hc1, ha1, ht1, hp1⟩ := updateText_fields_miss draw text color s hhit
    have hpre : cacheFind (text ++ "_" ++ toString (makeFluorescent color))
        (if 10 < s.textCache.length then s.textCache.tail else s.textCache) =
        none := by
      split
      · exact cacheFind_none_tail _ _ hhit
      · exact hhit
    have hfind : cacheFind (text ++ "_" ++ toString (makeFluorescent color))
        (updateText draw text color s).textCache =
        some (generateTextPoints draw text, makeFluorescent color) := by
      rw [hc1]
      exact cacheFind_append_self _ _ _ hpre
    obtain ⟨hc2, ha2, ht2, -⟩ := updateText_fields_hit draw text color
      (updateText draw text color s)
      (generateTextPoints draw text, makeFluorescent color) hfind
    refine ⟨⟨_, hfind⟩, hc2, ?_, by rw [ha2, ha1],
      ?_, fun _ hgt => by rw [hc1, if_pos hgt]⟩
    · rw [ht2, hp1, ht1, assignTextTargets_idem]
    · intro hb
      rw [hc1, List.length_append]
      split
      · simp only [List.length_tail, List.length_cons, List.length_nil]
        omega
      · simp only [List.length_cons, List.length_nil]
        omega

/-- Claim C2 (amended): after showContent with a fresh (uncached) key,
the active-count equals the full rasterization sample count — NOT
clamped to min(sampleCount, N) as originally claimed; the source stores
the raw length.  Each particle i below min(sampleCount, N) has target
equal to the i-th sample at the fixed 1.5x scale with z = 0, and every
particle from the sample count up to N parks at the fixed off-screen
point (0, 0, -1000), not a random position. -/
theorem updateText_active_count (draw : String → ℕ → ℕ) (text : String)
    (color : ℕ) (s : REngineState)
    (hmiss : cacheFind (text ++ "_" ++ toString (makeFluorescent color))
      s.textCache = none) :
    (updateText draw text color s).activeParticleCount =
      (generateTextPoints draw text).length ∧
    (∀ i, i < (generateTextPoints draw text).length → i < s.particleCount →
      (updateText draw text color s).targetPositions (3 * i) =
        ((generateTextPoints draw text).getD i (0, 0)).1 * 1.5 ∧
      (updateText draw text color s).targetPositions (3 * i + 1) =
        ((generateTextPoints draw text).getD i (0, 0)).2 * 1.5 ∧
      (updateText draw text color s).targetPositions (3 * i + 2) = 0) ∧
    (∀ i, (generateTextPoints draw text).length ≤ i → i < s.particleCount →
      (updateText draw text color s).targetPositions (3 * i) = 0 ∧
      (updateText draw text color s).targetPositions (3 * i + 1) = 0 ∧
      (updateText draw text color s).targetPositions (3 * i + 2) = -1000) := by
  obtain ⟨-, ha, ht, -⟩ := updateText_fields_miss draw text color s hmiss
  have d0 : ∀ i : ℕ, 3 * i / 3 = i := fun i => by omega
  have d1 : ∀ i : ℕ, (3 * i + 1) / 3 = i := fun i => by omega
  have d2 : ∀ i : ℕ, (3 * i + 2) / 3 = i := fun i => by omega
  refine ⟨ha, ?_, ?_⟩
  · intro i hilen hiN
    rw [ht]
    simp only [assignTextTargets]
    refine ⟨?_, ?_, ?_⟩
    · rw [if_pos (show 3 * i < 3 * s.particleCount by omega), d0]
      rw [if_pos hilen, if_pos (show 3 * i % 3 = 0 by omega)]
    · rw [if_pos (show 3 * i + 1 < 3 * s.particleCount by omega), d1]
      rw [if_pos hilen, if_neg (show ¬ (3 * i + 1) % 3 = 0 by omega),
        if_pos (show (3 * i + 1) % 3 = 1 by omega)]
    · rw [if_pos (show 3 * i + 2 < 3 * s.particleCount by omega), d2]
      rw [if_pos hilen, if_neg (show ¬ (3 * i + 2) % 3 = 0 by omega),
        if_neg (show ¬ (3 * i + 2) % 3 = 1 by omega)]
  · intro i hilen hiN
    rw [ht]
    simp only [assignTextTargets]
    refine ⟨?_, ?_, ?_⟩
    · rw [if_pos (show 3 * i < 3 * s.particleCount by omega), d0]
      rw [if_neg (by omega), if_neg (show ¬ 3 * i % 3 = 2 by omega)]
    · rw [if_pos (show 3 * i + 1 < 3 * s.particleCount by omega), d1]
      rw [if_neg (by omega), if_neg (show ¬ (3 * i + 1) % 3 = 2 by omega)]
    · rw [if_pos (show 3 * i + 2 < 3 * s.particleCount by omega), d2]
      rw [if_neg (by omega), if_pos (show (3 * i + 2) % 3 = 2 by omega)]

/-- Witness for the amended active-count claim on an empty cache. -/
theorem updateText_active_count_witness :
    cacheFind (textA ++ "_" ++ toString (makeFluorescent 0x00ffff))
      engineA.textCache = none ∧
    (updateText draw0 textA 0x00ffff engineA).activeParticleCount =
      (generateTextPoints draw0 textA).length :=
  ⟨rfl, (updateText_active_count draw0 textA 0x00ffff engineA rfl).1⟩

set_option maxRecDepth 100000 in
/-- Claim C2 counterexample: with one particle and a bitmap bright at
exactly two stride-grid positions, showContent sets the active-count to
2, the raw sample count, while the claim demands min(sampleCount, N) =
min(2, 1) = 1. -/
theorem updateText_active_count_counterexample :
    engineA.particleCount = 1 ∧
    (updateText draw0 textA 0x00ffff engineA).activeParticleCount = 2 ∧
    min (generateTextPoints draw0 textA).length engineA.particleCount = 1 ∧
    (2 : ℕ) ≠ 1 := by
  have hlen : (generateTextPoints draw0 textA).length = 2 := by decide
  have hact : (updateText draw0 textA 0x00ffff engineA).activeParticleCount =
      (generateTextPoints draw0 textA).length := rfl
  exact ⟨rfl, by rw [hact, hlen], by rw [hlen]; decide, by decide⟩

/-- Witness for the cache claim at a concrete state with an empty
cache. -/
theorem updateText_cache_hit_witness :
    engineA.textCache.length ≤ 11 ∧
    (updateText draw0 textA 0x00ffff engineA).textCache.length ≤ 11 :=
  ⟨by norm_num [engineA],
    (updateText_cache_hit draw0 textA 0x00ffff engineA).2.2.2.2.1
      (by norm_num [engineA])⟩
